import Mathlib

/-!
Verification of the PCC534 YouTube scraping pipeline
(video_transcript.py and youtube_scraper.py) against its
natural-language specification, via a shallow embedding: external
collaborators (YouTube Data API, transcript API, language detector,
Gemini HTTP endpoint, Supabase tables, the filesystem) are modelled as
explicit oracles and state, and each Python function is translated into
a Lean function over those oracles.  Python exceptions are modelled with
`Except PyErr`; a Python function that catches all exceptions is the
total function obtained by handling the `Except`.
-/

namespace PCC534

/-- Python exception classes that the two scripts can raise or catch. -/
inductive PyErr
  | keyError
  | indexError
  | typeError
  | attributeError
  | jsonDecodeError
  | langDetectException
  | transcriptsDisabled
  | noTranscriptFound
  | connectionError
  | other (msg : String)
deriving DecidableEq, Repr

/-! ## extract_videoId (video_transcript.py:98-103, youtube_scraper.py:148-152)

The source is `link.split("v=")[-1]`.  We model Python strings as
`List Char` for the splitting core and specialise Python str.split to
the literal separator `"v="` (leftmost, non-overlapping matches, which
is what Python does for a non-empty separator). -/

/-- Python `s.split("v=")` specialised to the two-character separator,
on `List Char`. -/
def splitVEq : List Char → List (List Char)
  | [] => [[]]
  | 'v' :: '=' :: rest => [] :: splitVEq rest
  | c :: rest =>
    match splitVEq rest with
    | [] => [[c]]
    | p :: ps => (c :: p) :: ps

/-- Whether `"v="` occurs as a contiguous substring (spec-side notion
used to state the claim about `extract_videoId`). -/
def containsVEq : List Char → Bool
  | [] => false
  | 'v' :: '=' :: _ => true
  | _ :: rest => containsVEq rest

/-- Spec-side definition: the suffix strictly after the last occurrence
of `"v="` (meaningful when `containsVEq` holds). -/
def afterLastVEq : List Char → List Char
  | [] => []
  | 'v' :: '=' :: rest => if containsVEq rest then afterLastVEq rest else rest
  | _ :: rest => afterLastVEq rest

/-- `extract_videoId` from video_transcript.py; `extract_video_id` in
youtube_scraper.py is textually identical.  Python `[-1]` on a `split`
result is total because `split` never returns an empty list; `getLastD`
with a default models it. -/
def extract_videoId (link : String) : String :=
  ((splitVEq link.data).getLastD []).asString

/-! ## The filesystem model and file_in_use
(video_transcript.py:234-244, youtube_scraper.py:126-134) -/

/-- A file as far as the scripts can observe it: a name, and whether
another process holds it open so that an append-mode open raises
IOError (the locked-spreadsheet situation the scripts probe for). -/
structure FsFile where
  name : String
  locked : Bool
deriving DecidableEq, Repr

/-- The filesystem: the list of existing files. -/
structure Fs where
  files : List FsFile
deriving DecidableEq, Repr

/-- Python `open(name, "a")`: raises IOError when the file is held open
by another process; otherwise succeeds, creating an empty file first
when none exists at that path (standard append-mode semantics). -/
def openAppend (fs : Fs) (name : String) : Except PyErr Fs :=
  match fs.files.find? (fun f => f.name = name) with
  | some f => if f.locked then .error (.other "IOError") else .ok fs
  | none => .ok ⟨fs.files ++ [⟨name, false⟩]⟩

/-- `file_in_use` (identical in both scripts): try to open in append
mode; return False when that succeeds and True on IOError.  The
returned filesystem records the side effect of the probe. -/
def file_in_use (fs : Fs) (file_name : String) : Bool × Fs :=
  match openAppend fs file_name with
  | .ok fs2 => (false, fs2)
  | .error _ => (true, fs)

/-! ## save_excel (video_transcript.py:247-258) and
save_results_to_excel (youtube_scraper.py:136-146)

Both variants are identical for the behaviour under study.  The
timestamp string produced by `datetime.now().strftime("%Y%m%d_%H%M%S")`
is an oracle input.  We model the filename selection; the actual
spreadsheet write is external I/O. -/

/-- Filename selection of `save_excel`: when the probe reports the
target in use, fall back to the literal
`youtube_videos_evaluated_<timestamp>.xlsx`; otherwise keep the target.
Also returns the filesystem after the probe. -/
def save_excel_filename (fs : Fs) (timestamp : String) (file_name : String) : String × Fs :=
  let probe := file_in_use fs file_name
  if probe.1 then
    ("youtube_videos_evaluated_" ++ timestamp ++ ".xlsx", probe.2)
  else
    (file_name, probe.2)

/-! ## JSON values and Python subscripting (for evaluate_video) -/

/-- A JSON value, as returned by `response.json()`. -/
inductive Json
  | null
  | bool (b : Bool)
  | num (n : Int)
  | str (s : String)
  | arr (elems : List Json)
  | obj (fields : List (String × Json))

/-- Python `x[key]` for a string key: KeyError on a dict missing the
key, TypeError on any non-dict value. -/
def Json.subscriptKey : Json → String → Except PyErr Json
  | .obj fields, k =>
    match fields.lookup k with
    | some v => .ok v
    | none => .error .keyError
  | _, _ => .error .typeError

/-- Python `x[i]` for a non-negative integer index: IndexError out of
range on lists and strings, TypeError on other values. -/
def Json.subscriptIdx : Json → Nat → Except PyErr Json
  | .arr xs, i =>
    match xs.get? i with
    | some v => .ok v
    | none => .error .indexError
  | .str s, i =>
    match s.data.get? i with
    | some c => .ok (.str (String.mk [c]))
    | none => .error .indexError
  | _, _ => .error .typeError

/-- Python `x.get(key, default)`: only dicts have `.get`; any other
value raises AttributeError. -/
def Json.dictGet : Json → String → Json → Except PyErr Json
  | .obj fields, k, d => .ok ((fields.lookup k).getD d)
  | _, _, _ => .error .attributeError

/-- Python truthiness of a JSON value. -/
def Json.truthy : Json → Bool
  | .null => false
  | .bool b => b
  | .num n => n != 0
  | .str s => s != ""
  | .arr xs => !xs.isEmpty
  | .obj fs => !fs.isEmpty

/-- Python `len(x)`: TypeError on values with no length. -/
def Json.pyLen : Json → Except PyErr Nat
  | .arr xs => .ok xs.length
  | .str s => .ok s.length
  | .obj fs => .ok fs.length
  | _ => .error .typeError

/-- An HTTP response as `requests` presents it: status code, raw text,
and the parsed body (`none` models a body that is not valid JSON, so
`response.json()` raises). -/
structure HttpResponse where
  status_code : Nat
  text : String
  body : Option Json

/-- Python `response.json()`: the parsed body, or JSONDecodeError. -/
def HttpResponse.json (r : HttpResponse) : Except PyErr Json :=
  match r.body with
  | some j => .ok j
  | none => .error .jsonDecodeError

/-! ## evaluate_video, youtube_scraper.py:76-124

`requests.post` is outside any try block in this variant; the claim
quantifies over upstream responses, so the function takes the response.
Only KeyError and IndexError are caught around the extraction. -/

/-- The extraction
`response.json()["candidates"][0]["content"]["parts"][0]["text"]`. -/
def extractText_ys (resp : HttpResponse) : Except PyErr Json := do
  let analysis ← resp.json
  let cands ← analysis.subscriptKey "candidates"
  let c0 ← cands.subscriptIdx 0
  let content ← c0.subscriptKey "content"
  let parts ← content.subscriptKey "parts"
  let p0 ← parts.subscriptIdx 0
  p0.subscriptKey "text"

/-- `evaluate_video` from youtube_scraper.py, given the response of the
POST.  A 200 response runs the extraction under
`except (KeyError, IndexError)`; every other exception propagates.  A
non-200 status returns a formatted error string. -/
def evaluate_video_ys (resp : HttpResponse) : Except PyErr Json :=
  if resp.status_code = 200 then
    match extractText_ys resp with
    | .ok t => .ok t
    | .error .keyError => .ok (.str "Erro ao processar a análise do vídeo.")
    | .error .indexError => .ok (.str "Erro ao processar a análise do vídeo.")
    | .error e => .error e
  else
    .ok (.str ("Erro na requisição: " ++ toString resp.status_code))

/-! ## evaluate_video, video_transcript.py:168-214

Here the whole body, including the POST, sits under
`except Exception`, so no exception escapes. -/

/-- Rendering of a Python exception by an f-string (the detail text is
irrelevant to the claims; only that a string is produced matters). -/
def pyErrMsg : PyErr → String
  | .keyError => "KeyError"
  | .indexError => "IndexError"
  | .typeError => "TypeError"
  | .attributeError => "AttributeError"
  | .jsonDecodeError => "JSONDecodeError"
  | .langDetectException => "LangDetectException"
  | .transcriptsDisabled => "TranscriptsDisabled"
  | .noTranscriptFound => "NoTranscriptFound"
  | .connectionError => "ConnectionError"
  | .other msg => msg

/-- The try-block body of `evaluate_video` in video_transcript.py,
taking the outcome of `requests.post` (which may itself raise). -/
def evaluate_video_vt_body (post : Except PyErr HttpResponse) : Except PyErr Json := do
  let response ← post
  if response.status_code = 200 then do
    let analysis ← response.json
    let content ← analysis.dictGet "candidates" (.arr [])
    if content.truthy then do
      let n ← content.pyLen
      if n > 0 then do
        let c0 ← content.subscriptIdx 0
        let inner ← c0.dictGet "content" (.obj [])
        let parts ← inner.dictGet "parts" (.arr [])
        if parts.truthy then do
          let m ← parts.pyLen
          if m > 0 then do
            let p0 ← parts.subscriptIdx 0
            p0.dictGet "text" (.str "Sem texto de avaliação.")
          else .ok (.str "Não foi possível extrair a análise de Gemini.")
        else .ok (.str "Não foi possível extrair a análise de Gemini.")
      else .ok (.str "Não foi possível extrair a análise de Gemini.")
    else .ok (.str "Não foi possível extrair a análise de Gemini.")
  else
    .ok (.str ("Erro na requisição: " ++ toString response.status_code ++ " - " ++ response.text))

/-- `evaluate_video` from video_transcript.py: the body under a
catch-all `except Exception` that converts any exception into a
placeholder string, so the function is total. -/
def evaluate_video_vt (post : Except PyErr HttpResponse) : Json :=
  match evaluate_video_vt_body post with
  | .ok v => v
  | .error e => .str ("Exceção ao requisitar avaliação Gemini: " ++ pyErrMsg e)

/-! ## fetch_transcript (video_transcript.py:106-135)

The transcript API and the language detector are oracles; both can
raise.  `YouTubeTranscriptApi.get_transcript` failures
(TranscriptsDisabled, NoTranscriptFound, anything else) and detector
failures are `Except.error` values. -/

/-- One caption fragment as returned by the transcript API; the code
reads only its `"text"` field. -/
structure TranscriptItem where
  text : String

/-- The two external collaborators of `fetch_transcript`. -/
structure TranscriptEnv where
  get_transcript : String → List String → Except PyErr (List TranscriptItem)
  detect : String → Except PyErr String

/-- `" ".join([item["text"] for item in transcript_list])`. -/
def joined_transcript (transcript_list : List TranscriptItem) : String :=
  String.intercalate " " (transcript_list.map TranscriptItem.text)

/-- Python `s.strip()`: drop leading and trailing whitespace. -/
def pyStrip (s : String) : String :=
  ((s.data.dropWhile Char.isWhitespace).reverse.dropWhile Char.isWhitespace).reverse.asString

/-- The try-block body of `fetch_transcript`: fetch, join the fragments
with spaces, and, when the joined text has non-whitespace content, run
language detection; a detected language outside the en/pt allow-list,
or a LangDetectException, turns the text into `none`.  Any other
detector exception escapes to the outer handler. -/
def fetch_transcript_body (env : TranscriptEnv) (video_id : String) (languages : List String) :
    Except PyErr (Option String) := do
  let transcript_list ← env.get_transcript video_id languages
  let transcript_text := joined_transcript transcript_list
  if pyStrip transcript_text ≠ "" then
    match env.detect transcript_text with
    | .ok lang =>
      if lang ∉ ["en", "pt"] then return none else return (some transcript_text)
    | .error .langDetectException => return none
    | .error e => .error e
  else
    return (some transcript_text)

/-- `fetch_transcript`: both except-branches of the source return None,
so every exception of the body collapses to `none`. -/
def fetch_transcript (env : TranscriptEnv) (video_id : String) (languages : List String) :
    Option String :=
  match fetch_transcript_body env video_id languages with
  | .ok r => r
  | .error _ => none

/-! ## Supabase tables and the persistence flows -/

/-- Outcome of `table(...).insert(row).execute()`: success with data,
success with empty data (the row is not stored), or a raised
exception (the row is not stored). -/
inductive InsertResult
  | ok
  | emptyData
  | raised (e : PyErr)

/-- A row of the `transcriptions` table. -/
structure TransRow where
  video_id : String
  transcript_text : Option String

/-- The `transcriptions` table: its rows plus an oracle fixing how an
insert of a given row behaves. -/
structure TransDb where
  rows : List TransRow
  insertBehavior : TransRow → InsertResult

/-- `already_transcripted` (video_transcript.py:138-143):
`select("id").eq("video_id", video_id)` then `len(data) > 0`. -/
def already_transcripted (db : TransDb) (video_id : String) : Bool :=
  (db.rows.filter (fun r => r.video_id = video_id)).length > 0

/-- `save_transcription` (video_transcript.py:146-165): one insert with
both the empty-data response and any exception merely logged. -/
def save_transcription (db : TransDb) (video_id : String) (transcript_text : Option String) :
    TransDb :=
  let data : TransRow := ⟨video_id, transcript_text⟩
  match db.insertBehavior data with
  | .ok => ⟨db.rows ++ [data], db.insertBehavior⟩
  | .emptyData => db
  | .raised _ => db

/-- The per-video transcript flow of `main`
(video_transcript.py:313-321): skip when already transcripted, else
fetch and save. -/
def transcript_flow_step (env : TranscriptEnv) (db : TransDb) (video_link : String) : TransDb :=
  let video_id := extract_videoId video_link
  if already_transcripted db video_id then db
  else save_transcription db video_id (fetch_transcript env video_id ["en", "pt", "pt-BR"])

/-- A row of the `videos` table. -/
structure VideosRow where
  title : String
  description : String
  channel : String
  link : String
  qualitative_analysis : Option String

/-- The `videos` table with its insert oracle. -/
structure VideosDb where
  rows : List VideosRow
  insertBehavior : VideosRow → InsertResult

/-- One item of the annotated result list fed to `save_database`: the
dict built by Discovery, with the optional "Qualitative analysis" key
added by the evaluation pass. -/
structure VideoItem where
  title : String
  description : String
  channel : String
  link : String
  qualitative_analysis : Option String

/-- `already_saved` (video_transcript.py:261-266); `is_video_in_database`
(youtube_scraper.py:154-159) is textually identical:
`select("id").eq("link", f"https://www.youtube.com/watch?v={video_id}")`
then `len(data) > 0`. -/
def already_saved (db : VideosDb) (video_id : String) : Bool :=
  (db.rows.filter
    (fun r => r.link = "https://www.youtube.com/watch?v=" ++ video_id)).length > 0

/-- Row built by video_transcript save_database:
`item.get("Qualitative analysis", "")` defaults to the empty string. -/
def vtRow (item : VideoItem) : VideosRow :=
  ⟨item.title, item.description, item.channel, item.link,
    some (item.qualitative_analysis.getD "")⟩

/-- Row built by youtube_scraper save_database:
`item.get("Qualitative analysis")` defaults to None. -/
def ysRow (item : VideoItem) : VideosRow :=
  ⟨item.title, item.description, item.channel, item.link, item.qualitative_analysis⟩

/-- One loop iteration of `save_database` in video_transcript.py
(lines 269-297): the insert sits under try/except, so both an
empty-data response and an exception are logged and skipped. -/
def save_database_vt_step (db : VideosDb) (item : VideoItem) : VideosDb :=
  let video_id := extract_videoId item.link
  if already_saved db video_id then db
  else
    let row := vtRow item
    match db.insertBehavior row with
    | .ok => ⟨db.rows ++ [row], db.insertBehavior⟩
    | .emptyData => db
    | .raised _ => db

/-- `save_database` from video_transcript.py: the loop over the batch. -/
def save_database_vt (data : List VideoItem) (db : VideosDb) : VideosDb :=
  data.foldl save_database_vt_step db

/-- One loop iteration of `save_database` in youtube_scraper.py
(lines 161-182): no try/except around the insert, so a raised
exception propagates out of the loop. -/
def save_database_ys_step (db : VideosDb) (item : VideoItem) : Except PyErr VideosDb :=
  let video_id := extract_videoId item.link
  if already_saved db video_id then .ok db
  else
    let row := ysRow item
    match db.insertBehavior row with
    | .ok => .ok ⟨db.rows ++ [row], db.insertBehavior⟩
    | .emptyData => .ok db
    | .raised e => .error e

/-- `save_database` from youtube_scraper.py. -/
def save_database_ys (data : List VideoItem) (db : VideosDb) : Except PyErr VideosDb :=
  data.foldlM save_database_ys_step db

/-! ## search_videos (video_transcript.py:41-95, youtube_scraper.py:20-73)

The two variants are identical.  The search API and the per-video
detail lookup are oracles; the query, recency window and the fixed
request parameters are folded into the search oracle, which varies only
in the page token and the per-page maxResults actually passed by the
loop.  The while loop is modelled with fuel: `none` means the fuel ran
out, so termination of the Python loop is `∃ fuel` returning `some`. -/

/-- A search hit: `item.get("id", {}).get("videoId")`. -/
structure SearchItem where
  videoId : Option String

/-- One page of search results: the item list and the optional
next-page token. -/
structure SearchResponse where
  items : List SearchItem
  nextPageToken : Option String

/-- The consumed fields of the detail lookup snippet. -/
structure Snippet where
  title : String
  description : Option String
  channelTitle : String

/-- The YouTube Data API as the loop sees it: `search` takes the page
token and the per-page maxResults; `videos` is the detail lookup,
`none` when its response has an empty items list. -/
structure Youtube where
  search : Option String → Nat → SearchResponse
  videos : String → Option Snippet

/-- The body of the `for item in response.get("items", [])` loop:
items without a videoId, and detail responses with no items, are
skipped; the rest become result dicts. -/
def fetch_details (yt : Youtube) : List SearchItem → List VideoItem
  | [] => []
  | item :: rest =>
    match item.videoId with
    | none => fetch_details yt rest
    | some vid =>
      match yt.videos vid with
      | none => fetch_details yt rest
      | some snippet =>
        ⟨snippet.title, snippet.description.getD "No Description", snippet.channelTitle,
          "https://www.youtube.com/watch?v=" ++ vid, none⟩ :: fetch_details yt rest

/-- The while loop of `search_videos`, with fuel.  Returns the results
together with the final `total_results` and page token so that the stop
condition can be stated; `none` means the fuel was exhausted before the
loop exited. -/
def search_videos_loop (yt : Youtube) (max_results : Nat) :
    Nat → Nat → Option String → List VideoItem →
    Option (List VideoItem × Nat × Option String)
  | 0, _, _, _ => none
  | fuel + 1, total_results, next_page_token, results =>
    if total_results < max_results then
      let response := yt.search next_page_token (min 50 (max_results - total_results))
      let results2 := results ++ fetch_details yt response.items
      let total2 := total_results + response.items.length
      match response.nextPageToken with
      | none => some (results2, total2, none)
      | some tok => search_videos_loop yt max_results fuel total2 (some tok) results2
    else
      some (results, total_results, next_page_token)

/-- `search_videos`: the loop started from an empty accumulator and no
page token. -/
def search_videos (yt : Youtube) (max_results fuel : Nat) :
    Option (List VideoItem × Nat × Option String) :=
  search_videos_loop yt max_results fuel 0 none []

/-- Termination of the Python while loop: some amount of fuel makes the
fueled loop exit. -/
def search_terminates (yt : Youtube) (max_results : Nat) : Prop :=
  ∃ fuel, (search_videos yt max_results fuel).isSome

/-! ## Theorems -/

theorem splitVEq_ne_nil (l : List Char) : splitVEq l ≠ [] := by
  induction l using splitVEq.induct with
  | case1 => simp [splitVEq]
  | case2 rest ih => simp [splitVEq]
  | case3 c rest h hsplit ih => simp [splitVEq, hsplit]
  | case4 c rest h p ps hsplit ih => simp [splitVEq, hsplit, h]

theorem splitVEq_of_not_contains (l : List Char) (hc : containsVEq l = false) :
    splitVEq l = [l] := by
  induction l using splitVEq.induct with
  | case1 => simp [splitVEq]
  | case2 rest ih => simp [containsVEq] at hc
  | case3 c rest h hsplit ih => exact absurd hsplit (splitVEq_ne_nil rest)
  | case4 c rest h p ps hsplit ih =>
    simp [containsVEq, h] at hc
    simp [splitVEq, h, hsplit]
    have := ih hc
    rw [hsplit] at this
    simp_all

theorem two_le_splitVEq_of_contains (l : List Char) (hc : containsVEq l = true) :
    2 ≤ (splitVEq l).length := by
  induction l using splitVEq.induct with
  | case1 => simp [containsVEq] at hc
  | case2 rest ih =>
    have hne := splitVEq_ne_nil rest
    have : (splitVEq rest).length ≠ 0 := by simpa using hne
    simp [splitVEq]
    omega
  | case3 c rest h hsplit ih => exact absurd hsplit (splitVEq_ne_nil rest)
  | case4 c rest h p ps hsplit ih =>
    simp [containsVEq, h] at hc
    have := ih hc
    rw [hsplit] at this
    simp [splitVEq, h, hsplit]
    simp at this
    omega

theorem getLast_splitVEq (l : List Char) :
    (splitVEq l).getLast? = some (if containsVEq l then afterLastVEq l else l) := by
  induction l using splitVEq.induct with
  | case1 => simp [splitVEq, containsVEq, afterLastVEq]
  | case2 rest ih =>
    obtain ⟨p, ps, hps⟩ := List.exists_cons_of_ne_nil (splitVEq_ne_nil rest)
    rw [splitVEq, hps, List.getLast?_cons_cons, ← hps, ih]
    simp [containsVEq, afterLastVEq]
  | case3 c rest h hsplit ih => exact absurd hsplit (splitVEq_ne_nil rest)
  | case4 c rest h p ps hsplit ih =>
    have e : splitVEq (c :: rest) = (c :: p) :: ps := by simp [splitVEq, h, hsplit]
    have hcont : containsVEq (c :: rest) = containsVEq rest := by
      simp [containsVEq, h]
    have hafter : afterLastVEq (c :: rest) = afterLastVEq rest := by
      simp [afterLastVEq, h]
    rw [hsplit] at ih
    cases ps with
    | nil =>
      have hcf : containsVEq rest = false := by
        by_contra hcc
        have h2 := two_le_splitVEq_of_contains rest (by simpa using hcc)
        rw [hsplit] at h2
        simp at h2
      rw [e, hcont, hcf]
      rw [hcf] at ih
      simp at ih
      simp [ih]
    | cons q qs =>
      have hct : containsVEq rest = true := by
        by_contra hcc
        have h1 := splitVEq_of_not_contains rest (by simpa using hcc)
        rw [hsplit] at h1
        simp at h1
      rw [hct] at ih
      simp only [if_true] at ih
      rw [List.getLast?_cons_cons] at ih
      rw [e, List.getLast?_cons_cons, hcont, hafter, hct]
      rw [if_pos rfl]
      exact ih

/-- C10: for every link string, `extract_videoId` returns the entire
substring after the last occurrence of `"v="` (including any trailing
characters), and returns the input unchanged when `"v="` does not occur
in it. -/
theorem extract_videoId_after_last_marker (link : String) :
    (containsVEq link.data = true →
      extract_videoId link = (afterLastVEq link.data).asString) ∧
    (containsVEq link.data = false → extract_videoId link = link) := by
  have key := getLast_splitVEq link.data
  constructor
  · intro hc
    rw [hc] at key
    simp only [if_true] at key
    unfold extract_videoId
    rw [List.getLastD_eq_getLast?, key]
    rfl
  · intro hc
    rw [hc] at key
    simp only [Bool.false_eq_true, if_false] at key
    unfold extract_videoId
    rw [List.getLastD_eq_getLast?, key]
    rfl

/-- Witness for C10, on a link with two occurrences of `"v="` and extra
query parameters, and one with none. -/
theorem extract_videoId_after_last_marker_witness :
    (containsVEq "https://www.youtube.com/watch?v=abc&v=def&t=1".data = true ∧
      extract_videoId "https://www.youtube.com/watch?v=abc&v=def&t=1" =
        (afterLastVEq "https://www.youtube.com/watch?v=abc&v=def&t=1".data).asString ∧
      (afterLastVEq "https://www.youtube.com/watch?v=abc&v=def&t=1".data).asString =
        "def&t=1") ∧
    (containsVEq "https://youtu.be/abc".data = false ∧
      extract_videoId "https://youtu.be/abc" = "https://youtu.be/abc") := by
  refine ⟨⟨by decide, ?_, by decide⟩, ⟨by decide, ?_⟩⟩
  · exact (extract_videoId_after_last_marker
      "https://www.youtube.com/watch?v=abc&v=def&t=1").1 (by decide)
  · exact (extract_videoId_after_last_marker "https://youtu.be/abc").2 (by decide)

/-- C9: for every filename naming a file that does not currently exist,
`file_in_use` returns False and, as a side effect of its append-mode
probe, creates an empty file at that path. -/
theorem file_in_use_creates_missing_file (fs : Fs) (name : String)
    (habs : ∀ f ∈ fs.files, f.name ≠ name) :
    file_in_use fs name = (false, ⟨fs.files ++ [⟨name, false⟩]⟩) := by
  have hfind : fs.files.find? (fun f => f.name = name) = none := by
    rw [List.find?_eq_none]
    intro f hf
    simpa using habs f hf
  simp [file_in_use, openAppend, hfind]

/-- Witness for C9: probing for a missing file on a filesystem holding
one unrelated file. -/
theorem file_in_use_creates_missing_file_witness :
    (∀ f ∈ (Fs.mk [⟨"other.txt", false⟩]).files, f.name ≠ "youtube_videos_evaluated.xlsx") ∧
    file_in_use ⟨[⟨"other.txt", false⟩]⟩ "youtube_videos_evaluated.xlsx" =
      (false, ⟨[⟨"other.txt", false⟩, ⟨"youtube_videos_evaluated.xlsx", false⟩]⟩) := by
  constructor
  · decide
  · exact file_in_use_creates_missing_file ⟨[⟨"other.txt", false⟩]⟩
      "youtube_videos_evaluated.xlsx" (by decide)

/-- C5 counterexample: with the target `report.xlsx` locked, the
fallback filename is the fixed `youtube_videos_evaluated_<ts>.xlsx`,
not a name derived from the target (`report_<ts>.xlsx`). -/
theorem save_excel_fallback_not_derived :
    (save_excel_filename ⟨[⟨"report.xlsx", true⟩]⟩ "20250101_000000" "report.xlsx").1 =
      "youtube_videos_evaluated_20250101_000000.xlsx" ∧
    (save_excel_filename ⟨[⟨"report.xlsx", true⟩]⟩ "20250101_000000" "report.xlsx").1 ≠
      "report_20250101_000000.xlsx" := by
  constructor
  · rfl
  · decide

/-- C5 amended: when the append-mode probe reports the target file in
use, the Report Writer writes to the fixed filename
`youtube_videos_evaluated_<timestamp>.xlsx`, regardless of the target
name (coinciding with the claimed target-derived name only for the
default target); when the probe succeeds, it writes to the target. -/
theorem save_excel_fallback_name (fs : Fs) (ts name : String) :
    ((file_in_use fs name).1 = true →
      (save_excel_filename fs ts name).1 = "youtube_videos_evaluated_" ++ ts ++ ".xlsx") ∧
    ((file_in_use fs name).1 = false →
      (save_excel_filename fs ts name).1 = name) := by
  unfold save_excel_filename
  constructor <;> intro h <;> simp [h]

/-- Witness for the amended C5, with the default target locked: the
fallback then is exactly the timestamp-suffixed default name. -/
theorem save_excel_fallback_name_witness :
    (file_in_use ⟨[⟨"youtube_videos_evaluated.xlsx", true⟩]⟩ "youtube_videos_evaluated.xlsx").1
      = true ∧
    (save_excel_filename ⟨[⟨"youtube_videos_evaluated.xlsx", true⟩]⟩ "20250101_000000"
      "youtube_videos_evaluated.xlsx").1 =
      "youtube_videos_evaluated_" ++ "20250101_000000" ++ ".xlsx" := by
  refine ⟨by decide, ?_⟩
  exact (save_excel_fallback_name ⟨[⟨"youtube_videos_evaluated.xlsx", true⟩]⟩
    "20250101_000000" "youtube_videos_evaluated.xlsx").1 (by decide)

/-- C2: when the transcript is fetched, a detected language outside the
en/pt allow-list yields `none`, a detection failure yields `none`, and
text detected as an allowed language passes through unchanged. -/
theorem fetch_transcript_language_filter (env : TranscriptEnv) (video_id : String)
    (languages : List String) (items : List TranscriptItem)
    (hfetch : env.get_transcript video_id languages = .ok items) :
    (∀ lang, pyStrip (joined_transcript items) ≠ "" →
      env.detect (joined_transcript items) = .ok lang → lang ∉ ["en", "pt"] →
      fetch_transcript env video_id languages = none) ∧
    (∀ e, pyStrip (joined_transcript items) ≠ "" →
      env.detect (joined_transcript items) = .error e →
      fetch_transcript env video_id languages = none) ∧
    (∀ lang, env.detect (joined_transcript items) = .ok lang → lang ∈ ["en", "pt"] →
      fetch_transcript env video_id languages = some (joined_transcript items)) := by
  refine ⟨?_, ?_, ?_⟩
  · intro lang htrim hdet hnot
    simp [fetch_transcript, fetch_transcript_body, Bind.bind, Except.bind, pure, Except.pure, hfetch, htrim, hdet, hnot]
  · intro e htrim hdet
    cases e <;> simp [fetch_transcript, fetch_transcript_body, Bind.bind, Except.bind, pure, Except.pure, hfetch, htrim, hdet]
  · intro lang hdet hin
    by_cases htrim : pyStrip (joined_transcript items) = ""
    · simp [fetch_transcript, fetch_transcript_body, Bind.bind, Except.bind, pure, Except.pure, hfetch, htrim]
    · have hnn : ¬(¬lang = "en" ∧ ¬lang = "pt") := by
        rcases (by simpa using hin : lang = "en" ∨ lang = "pt") with h | h <;> simp [h]
      simp [fetch_transcript, fetch_transcript_body, Bind.bind, Except.bind, pure, Except.pure, hfetch, htrim, hdet, hnn]

/-- Witness for C2: a Spanish transcript is nulled, an English one
passes through unchanged. -/
theorem fetch_transcript_language_filter_witness :
    (TranscriptEnv.mk (fun _ _ => .ok [⟨"hola"⟩, ⟨"amigos"⟩]) (fun _ => .ok "es")).get_transcript
        "id1" ["en", "pt", "pt-BR"] = .ok [⟨"hola"⟩, ⟨"amigos"⟩] ∧
    fetch_transcript ⟨fun _ _ => .ok [⟨"hola"⟩, ⟨"amigos"⟩], fun _ => .ok "es"⟩
        "id1" ["en", "pt", "pt-BR"] = none ∧
    fetch_transcript ⟨fun _ _ => .ok [⟨"hello"⟩, ⟨"there"⟩], fun _ => .ok "en"⟩
        "id1" ["en", "pt", "pt-BR"] = some "hello there" := by
  refine ⟨rfl, ?_, ?_⟩
  · exact (fetch_transcript_language_filter
      ⟨fun _ _ => .ok [⟨"hola"⟩, ⟨"amigos"⟩], fun _ => .ok "es"⟩
      "id1" ["en", "pt", "pt-BR"] [⟨"hola"⟩, ⟨"amigos"⟩] rfl).1 "es" (by decide) rfl (by decide)
  · have := (fetch_transcript_language_filter
      ⟨fun _ _ => .ok [⟨"hello"⟩, ⟨"there"⟩], fun _ => .ok "en"⟩
      "id1" ["en", "pt", "pt-BR"] [⟨"hello"⟩, ⟨"there"⟩] rfl).2.2 "en" rfl (by decide)
    simpa [joined_transcript] using this

/-- C6: `fetch_transcript` never raises: a transcript-API failure of
any kind yields `none`, a detector failure on non-blank text yields
`none`, and in general every exception of the try-block body collapses
to `none`. -/
theorem fetch_transcript_never_raises (env : TranscriptEnv) (video_id : String)
    (languages : List String) :
    (∀ e, env.get_transcript video_id languages = .error e →
      fetch_transcript env video_id languages = none) ∧
    (∀ items e, env.get_transcript video_id languages = .ok items →
      pyStrip (joined_transcript items) ≠ "" →
      env.detect (joined_transcript items) = .error e →
      fetch_transcript env video_id languages = none) ∧
    (∀ e, fetch_transcript_body env video_id languages = .error e →
      fetch_transcript env video_id languages = none) := by
  refine ⟨?_, ?_, ?_⟩
  · intro e he
    simp [fetch_transcript, fetch_transcript_body, Bind.bind, Except.bind, pure, Except.pure, he]
  · intro items e hok htrim hdet
    cases e <;> simp [fetch_transcript, fetch_transcript_body, Bind.bind, Except.bind, pure, Except.pure, hok, htrim, hdet]
  · intro e he
    simp [fetch_transcript, he]

/-- Witness for C6: captions disabled, and a detector failure, both
collapse to `none`. -/
theorem fetch_transcript_never_raises_witness :
    fetch_transcript ⟨fun _ _ => .error .transcriptsDisabled, fun _ => .ok "en"⟩
        "id1" ["en", "pt", "pt-BR"] = none ∧
    fetch_transcript ⟨fun _ _ => .ok [⟨"zzz"⟩], fun _ => .error .langDetectException⟩
        "id1" ["en", "pt", "pt-BR"] = none := by
  constructor
  · exact (fetch_transcript_never_raises
      ⟨fun _ _ => .error .transcriptsDisabled, fun _ => .ok "en"⟩
      "id1" ["en", "pt", "pt-BR"]).1 .transcriptsDisabled rfl
  · exact (fetch_transcript_never_raises
      ⟨fun _ _ => .ok [⟨"zzz"⟩], fun _ => .error .langDetectException⟩
      "id1" ["en", "pt", "pt-BR"]).2.1 [⟨"zzz"⟩] .langDetectException rfl (by decide) rfl

/-- C3 counterexample: in the youtube_scraper.py variant, a 200
response whose body is not valid JSON makes `response.json()` raise
JSONDecodeError, which the `except (KeyError, IndexError)` clause does
not catch: the exception escapes to the caller instead of becoming a
placeholder string. -/
theorem evaluate_video_ys_raises_on_bad_json :
    evaluate_video_ys ⟨200, "not json", none⟩ = .error .jsonDecodeError := rfl

/-- C3 amended: the video_transcript.py variant never raises (its
catch-all turns every exception into a placeholder string, and non-200
statuses into descriptive strings); the youtube_scraper.py variant
returns a descriptive string on non-success statuses and on
KeyError/IndexError extraction failures, but exceptions outside those
two classes escape it. -/
theorem evaluate_video_error_handling :
    (∀ post e, evaluate_video_vt_body post = .error e →
      evaluate_video_vt post =
        .str ("Exceção ao requisitar avaliação Gemini: " ++ pyErrMsg e)) ∧
    (∀ resp : HttpResponse, resp.status_code ≠ 200 →
      evaluate_video_ys resp =
        .ok (.str ("Erro na requisição: " ++ toString resp.status_code))) ∧
    (∀ resp : HttpResponse, resp.status_code ≠ 200 →
      evaluate_video_vt (.ok resp) =
        .str ("Erro na requisição: " ++ toString resp.status_code ++ " - " ++ resp.text)) ∧
    (∀ resp : HttpResponse, resp.status_code = 200 →
      (extractText_ys resp = .error .keyError ∨ extractText_ys resp = .error .indexError) →
      evaluate_video_ys resp = .ok (.str "Erro ao processar a análise do vídeo.")) := by
  refine ⟨?_, ?_, ?_, ?_⟩
  · intro post e he
    simp [evaluate_video_vt, he]
  · intro resp h
    simp [evaluate_video_ys, h]
  · intro resp h
    simp [evaluate_video_vt, evaluate_video_vt_body, Bind.bind, Except.bind, pure,
      Except.pure, h]
  · intro resp h200 herr
    rcases herr with he | he <;> simp [evaluate_video_ys, h200, he]

/-- Witness for the amended C3: a raised POST in the vt variant becomes
a placeholder string; a 404 yields the descriptive string in both
variants; a 200 dict without "candidates" yields the KeyError
placeholder in the ys variant. -/
theorem evaluate_video_error_handling_witness :
    evaluate_video_vt (.error .connectionError) =
      .str ("Exceção ao requisitar avaliação Gemini: " ++ pyErrMsg .connectionError) ∧
    evaluate_video_ys ⟨404, "nf", some .null⟩ =
      .ok (.str ("Erro na requisição: " ++ toString (404 : Nat))) ∧
    evaluate_video_vt (.ok ⟨404, "nf", some .null⟩) =
      .str ("Erro na requisição: " ++ toString (404 : Nat) ++ " - " ++ "nf") ∧
    evaluate_video_ys ⟨200, "", some (.obj [])⟩ =
      .ok (.str "Erro ao processar a análise do vídeo.") := by
  refine ⟨?_, ?_, ?_, ?_⟩
  · exact evaluate_video_error_handling.1 (.error .connectionError) .connectionError rfl
  · exact evaluate_video_error_handling.2.1 ⟨404, "nf", some .null⟩ (by decide)
  · exact evaluate_video_error_handling.2.2.1 ⟨404, "nf", some .null⟩ (by decide)
  · exact evaluate_video_error_handling.2.2.2 ⟨200, "", some (.obj [])⟩ rfl (Or.inl rfl)

/-- C4 counterexample: in youtube_scraper.py, the insert of the first
row raising an exception aborts the whole batch (the second row is
never processed and the exception propagates). -/
theorem save_database_ys_aborts_on_raise :
    save_database_ys
      [⟨"T1", "D1", "Ch1", "https://www.youtube.com/watch?v=a1", none⟩,
        ⟨"T2", "D2", "Ch2", "https://www.youtube.com/watch?v=a2", none⟩]
      ⟨[], fun _ => .raised .connectionError⟩ = .error .connectionError := rfl

/-- C4 amended: in the video_transcript.py variant every per-row insert
failure (raised exception or empty-data response) is skipped and the
remaining rows are processed as if the failing row were absent; in the
youtube_scraper.py variant this holds for empty-data responses, while a
raised insert exception aborts the batch. -/
theorem save_database_insert_failures :
    (∀ (db : VideosDb) (item : VideoItem) (rest : List VideoItem) (e : PyErr),
      already_saved db (extract_videoId item.link) = false →
      db.insertBehavior (vtRow item) = .raised e →
      save_database_vt (item :: rest) db = save_database_vt rest db) ∧
    (∀ (db : VideosDb) (item : VideoItem) (rest : List VideoItem),
      already_saved db (extract_videoId item.link) = false →
      db.insertBehavior (vtRow item) = .emptyData →
      save_database_vt (item :: rest) db = save_database_vt rest db) ∧
    (∀ (db : VideosDb) (item : VideoItem) (rest : List VideoItem),
      already_saved db (extract_videoId item.link) = false →
      db.insertBehavior (ysRow item) = .emptyData →
      save_database_ys (item :: rest) db = save_database_ys rest db) := by
  refine ⟨?_, ?_, ?_⟩
  · intro db item rest e h1 h2
    have hstep : save_database_vt_step db item = db := by
      simp [save_database_vt_step, h1, h2]
    simp [save_database_vt, List.foldl_cons, hstep]
  · intro db item rest h1 h2
    have hstep : save_database_vt_step db item = db := by
      simp [save_database_vt_step, h1, h2]
    simp [save_database_vt, List.foldl_cons, hstep]
  · intro db item rest h1 h2
    have hstep : save_database_ys_step db item = .ok db := by
      simp [save_database_ys_step, h1, h2]
    simp [save_database_ys, List.foldlM_cons, hstep, Bind.bind, Except.bind]

/-- Witness for the amended C4: with an insert oracle that always
raises, the vt variant skips the failing row and finishes the batch;
with one that returns empty data, both variants do. -/
theorem save_database_insert_failures_witness :
    already_saved ⟨[], fun _ => .raised .connectionError⟩
      (extract_videoId "https://www.youtube.com/watch?v=a1") = false ∧
    save_database_vt [⟨"T1", "D1", "Ch1", "https://www.youtube.com/watch?v=a1", none⟩]
      ⟨[], fun _ => .raised .connectionError⟩ =
      save_database_vt [] ⟨[], fun _ => .raised .connectionError⟩ ∧
    save_database_ys [⟨"T1", "D1", "Ch1", "https://www.youtube.com/watch?v=a1", none⟩]
      ⟨[], fun _ => .emptyData⟩ =
      save_database_ys [] ⟨[], fun _ => .emptyData⟩ := by
  refine ⟨rfl, ?_, ?_⟩
  · exact save_database_insert_failures.1 ⟨[], fun _ => .raised .connectionError⟩
      ⟨"T1", "D1", "Ch1", "https://www.youtube.com/watch?v=a1", none⟩ [] .connectionError
      rfl rfl
  · exact save_database_insert_failures.2.2 ⟨[], fun _ => .emptyData⟩
      ⟨"T1", "D1", "Ch1", "https://www.youtube.com/watch?v=a1", none⟩ [] rfl rfl

/-- C7: a video id already present in the transcriptions table makes
the per-video transcript flow skip insertion and leave the table
untouched. -/
theorem transcript_flow_skips_existing (env : TranscriptEnv) (db : TransDb)
    (video_link : String)
    (h : already_transcripted db (extract_videoId video_link) = true) :
    transcript_flow_step env db video_link = db := by
  simp [transcript_flow_step, h]

/-- Witness for C7: a table already holding video id abc. -/
theorem transcript_flow_skips_existing_witness :
    already_transcripted ⟨[⟨"abc", some "text"⟩], fun _ => .ok⟩
      (extract_videoId "https://www.youtube.com/watch?v=abc") = true ∧
    transcript_flow_step ⟨fun _ _ => .error .transcriptsDisabled, fun _ => .ok "en"⟩
      ⟨[⟨"abc", some "text"⟩], fun _ => .ok⟩ "https://www.youtube.com/watch?v=abc" =
      ⟨[⟨"abc", some "text"⟩], fun _ => .ok⟩ := by
  refine ⟨by decide, ?_⟩
  exact transcript_flow_skips_existing ⟨fun _ _ => .error .transcriptsDisabled, fun _ => .ok "en"⟩
    ⟨[⟨"abc", some "text"⟩], fun _ => .ok⟩ "https://www.youtube.com/watch?v=abc" (by decide)

/-- C8: a record whose reconstructed watch-URL is already in the videos
table is skipped by both save_database variants, with no write. -/
theorem save_database_skips_existing (db : VideosDb) (item : VideoItem)
    (h : already_saved db (extract_videoId item.link) = true) :
    save_database_vt_step db item = db ∧ save_database_ys_step db item = .ok db := by
  constructor <;> simp [save_database_vt_step, save_database_ys_step, h]

/-- Witness for C8: a table already holding the watch-URL of the
incoming record. -/
theorem save_database_skips_existing_witness :
    already_saved ⟨[⟨"T0", "D0", "Ch0", "https://www.youtube.com/watch?v=a1", none⟩], fun _ => .ok⟩
      (extract_videoId "https://www.youtube.com/watch?v=a1") = true ∧
    save_database_vt_step
      ⟨[⟨"T0", "D0", "Ch0", "https://www.youtube.com/watch?v=a1", none⟩], fun _ => .ok⟩
      ⟨"T1", "D1", "Ch1", "https://www.youtube.com/watch?v=a1", none⟩ =
      ⟨[⟨"T0", "D0", "Ch0", "https://www.youtube.com/watch?v=a1", none⟩], fun _ => .ok⟩ ∧
    save_database_ys_step
      ⟨[⟨"T0", "D0", "Ch0", "https://www.youtube.com/watch?v=a1", none⟩], fun _ => .ok⟩
      ⟨"T1", "D1", "Ch1", "https://www.youtube.com/watch?v=a1", none⟩ =
      .ok ⟨[⟨"T0", "D0", "Ch0", "https://www.youtube.com/watch?v=a1", none⟩], fun _ => .ok⟩ := by
  refine ⟨by decide, ?_, ?_⟩
  · exact (save_database_skips_existing
      ⟨[⟨"T0", "D0", "Ch0", "https://www.youtube.com/watch?v=a1", none⟩], fun _ => .ok⟩
      ⟨"T1", "D1", "Ch1", "https://www.youtube.com/watch?v=a1", none⟩ (by decide)).1
  · exact (save_database_skips_existing
      ⟨[⟨"T0", "D0", "Ch0", "https://www.youtube.com/watch?v=a1", none⟩], fun _ => .ok⟩
      ⟨"T1", "D1", "Ch1", "https://www.youtube.com/watch?v=a1", none⟩ (by decide)).2

/-- An adversarial upstream for C1: every page is empty but still
carries a next-page token. -/
def emptyPagesYt : Youtube :=
  ⟨fun _ _ => ⟨[], some "t"⟩, fun _ => none⟩

theorem search_videos_loop_empty_pages (fuel : Nat) :
    ∀ (total : Nat) (tok : Option String) (res : List VideoItem), total < 50 →
      search_videos_loop emptyPagesYt 50 fuel total tok res = none := by
  induction fuel with
  | zero =>
    intro total tok res h
    rfl
  | succ n ih =>
    intro total tok res h
    rw [search_videos_loop]
    simp only [emptyPagesYt, h, if_true, fetch_details, List.append_nil, List.length_nil,
      Nat.add_zero]
    exact ih total (some "t") res h

/-- C1 counterexample: against an upstream that answers every request
with an empty item list plus a next-page token, the pagination loop of
`search_videos` never exits (no amount of fuel suffices), although the
requested maximum of 50 is never reached and a token is always
present. -/
theorem search_videos_empty_pages_diverge : ¬ search_terminates emptyPagesYt 50 := by
  rintro ⟨fuel, hsome⟩
  rw [search_videos, search_videos_loop_empty_pages fuel 0 none [] (by omega)] at hsome
  simp at hsome

theorem search_videos_loop_exits (yt : Youtube) (max_results : Nat)
    (H : ∀ tok n, (yt.search tok n).nextPageToken.isSome → (yt.search tok n).items ≠ [])
    (fuel : Nat) :
    ∀ (total : Nat) (tok : Option String) (res : List VideoItem),
      max_results - total < fuel →
      ∃ results total2 tok2,
        search_videos_loop yt max_results fuel total tok res = some (results, total2, tok2) ∧
          (max_results ≤ total2 ∨ tok2 = none) := by
  induction fuel with
  | zero =>
    intro total tok res hfuel
    omega
  | succ n ih =>
    intro total tok res hfuel
    rw [search_videos_loop]
    by_cases h : total < max_results
    · simp only [h, if_true]
      rcases hres : (yt.search tok (min 50 (max_results - total))).nextPageToken with _ | t
      · exact ⟨_, _, _, rfl, Or.inr rfl⟩
      · have hitems : (yt.search tok (min 50 (max_results - total))).items ≠ [] := by
          exact H tok (min 50 (max_results - total)) (by rw [hres]; rfl)
        have hlen : 1 ≤ (yt.search tok (min 50 (max_results - total))).items.length := by
          have := List.length_pos.mpr hitems
          omega
        exact ih (total + (yt.search tok (min 50 (max_results - total))).items.length)
          (some t) (res ++ fetch_details yt (yt.search tok (min 50 (max_results - total))).items)
          (by omega)
    · simp only [h, if_false]
      exact ⟨res, total, tok, rfl, Or.inl (by omega)⟩

/-- C1 amended: provided every upstream page that carries a next-page
token also contains at least one item, the pagination loop exits with
fuel max_results + 1, and at exit the accumulated count has reached the
requested maximum or the last response carried no next-page token; with
a pathological upstream that returns empty pages with tokens, the loop
does not terminate (see the counterexample). -/
theorem search_videos_pagination (yt : Youtube) (max_results : Nat)
    (H : ∀ tok n, (yt.search tok n).nextPageToken.isSome → (yt.search tok n).items ≠ []) :
    ∃ results total tok,
      search_videos yt max_results (max_results + 1) = some (results, total, tok) ∧
        (max_results ≤ total ∨ tok = none) := by
  rw [search_videos]
  exact search_videos_loop_exits yt max_results H (max_results + 1) 0 none [] (by omega)

/-- Witness for the amended C1, mirroring the worked example of the
spec: a single page of two items with no next-page token, requested
maximum 2.  The hypothesis holds because no page carries a token. -/
theorem search_videos_pagination_witness :
    (∀ tok n, ((⟨fun _ _ => ⟨[⟨some "a1"⟩, ⟨some "a2"⟩], none⟩,
        fun _ => some ⟨"T", none, "Ch"⟩⟩ : Youtube).search tok n).nextPageToken.isSome →
      ((⟨fun _ _ => ⟨[⟨some "a1"⟩, ⟨some "a2"⟩], none⟩,
        fun _ => some ⟨"T", none, "Ch"⟩⟩ : Youtube).search tok n).items ≠ []) ∧
    ∃ results total tok,
      search_videos ⟨fun _ _ => ⟨[⟨some "a1"⟩, ⟨some "a2"⟩], none⟩,
          fun _ => some ⟨"T", none, "Ch"⟩⟩ 2 3 = some (results, total, tok) ∧
        (2 ≤ total ∨ tok = none) := by
  constructor
  · intro tok n h
    simp at h
  · exact search_videos_pagination
      ⟨fun _ _ => ⟨[⟨some "a1"⟩, ⟨some "a2"⟩], none⟩, fun _ => some ⟨"T", none, "Ch"⟩⟩ 2
      (by intro tok n h; simp at h)

end PCC534
